import Mathlib

/-!
Verification of `cuegui/PreviewWidget.py` (OpenCue): the preview-file
watch thread (`PreviewProcessorWatchThread`), the log-file port scan
(`PreviewProcessorDialog.__findHttpPort`) and the empty-playlist guard in
`PreviewProcessorDialog.process`, shallowly embedded in Lean.

The filesystem is a function `fs : Nat → String → Bool` giving, for each
absolute time, which paths exist.  A run of the watch thread samples it only
at its start time: the `while 1` body of `run()` raises an uncaught
`AttributeError` on line 169 of the source (`self.existsCountChanged` is
never defined — the signal declared on line 153 is `existCountChanged`,
without the extra `s`), so the loop aborts during its first iteration, right
after line 168's legacy emit has delivered the first progress notification
and before the completion break (line 170), the `time.sleep(1)` (line 172)
and the deadline comparison (line 173) — all of which are unreachable.
-/

namespace PreviewWidget

/-- A notification from the watch thread: `progress` is the
`existCountChanged(count, total)` signal delivered by line 168's legacy
emit; `timeout` is the notification line 174 would aim to emit — the class
declares no `timeout` signal (line 153 declares only `existCountChanged`)
and line 174 is unreachable, so no run ever produces it. -/
inductive Event where
  | progress (current total : Nat)
  | timeout
deriving DecidableEq, Repr

/-- How a run of the watch thread ends.  `completed` and `timedOut` are the
two intended loop exits (the `count == len(items)` break on line 170 and the
deadline break on line 176) — both unreachable in the source.  `crashed a`
is what actually happens: `run()` ends by an uncaught `AttributeError` on
the missing attribute `a`. -/
inductive Outcome where
  | completed
  | timedOut
  | crashed (a : String)
deriving DecidableEq, Repr

/-- Observable trace of one run of `PreviewProcessorWatchThread.run`:
the delivered notifications in order, how `run()` ended, how many
`time.sleep(1)` calls executed, the absolute time at which `run()` ended,
and the value of `self.__timeout + start_time` at each execution of the
deadline comparison (line 173). -/
structure RunResult where
  events : List Event
  outcome : Outcome
  sleeps : Nat
  endTime : Nat
  deadlinesChecked : List Nat
deriving DecidableEq, Repr

/-- `len([path for path in items if os.path.exists(path)])` at one instant:
`exists_now` is `os.path.exists` at that instant. -/
def existCount (exists_now : String → Bool) (items : List String) : Nat :=
  (items.filter (fun path => exists_now path)).length

lemma existCount_le (exists_now : String → Bool) (items : List String) :
    existCount exists_now items ≤ items.length :=
  List.length_filter_le _ _

/-- The watch thread object: `__init__` stores the item list and
`self.__timeout = 60 + (30 * len(items))` (line 158) — the only assignment
to `__timeout` anywhere in the file. -/
structure PreviewProcessorWatchThread where
  items : List String
  timeout : Nat
deriving DecidableEq, Repr

/-- `PreviewProcessorWatchThread.__init__(items)`. -/
def PreviewProcessorWatchThread.init (items : List String) :
    PreviewProcessorWatchThread :=
  ⟨items, 60 + 30 * items.length⟩

/-- `PreviewProcessorWatchThread.run`, as the source executes it: capture
`start_time` (line 165); the first loop iteration computes
`count = len([path for path in self.__items if os.path.exists(path)])`
(line 167) and line 168's legacy emit delivers the progress notification
`(count, len(items))`; then line 169 evaluates `self.existsCountChanged` —
an attribute that does not exist, since the signal declared on line 153 is
`existCountChanged` — raising an uncaught `AttributeError` that aborts
`run()`.  The completion break (lines 170-171), `time.sleep(1)` (line 172),
the deadline comparison (line 173) and `self.timeout.emit()` (line 174) are
unreachable, so every run delivers exactly one notification, sleeps zero
times, evaluates the deadline zero times, and ends at `start_time` in the
crashed state. -/
def PreviewProcessorWatchThread.run (t : PreviewProcessorWatchThread)
    (fs : Nat → String → Bool) (start_time : Nat) : RunResult :=
  ⟨[Event.progress (existCount (fs start_time) t.items) t.items.length],
    Outcome.crashed "existsCountChanged", 0, start_time, []⟩

/-! ### The claims about the watch thread -/

/-- C1: on each tick the poller performs, it recomputes `existing_count` as
the number of paths of the fixed list that currently exist, and the
notification it emits carries exactly `(existing_count, total_count)` with
`total_count` the length of the list: every run's notifications are
precisely the first tick's `(existCount, N)` — the crash on line 169 aborts
the loop after that single emission.  Concretely, for items `["/a", "/b"]`
where at the first tick only `/a` exists, the first progress notification
is `(1, 2)`. -/
theorem c1_progress_per_tick :
    (∀ (items : List String) (fs : Nat → String → Bool) (start_time : Nat),
        ((PreviewProcessorWatchThread.init items).run fs start_time).events =
          [Event.progress (existCount (fs start_time) items) items.length]) ∧
    ((PreviewProcessorWatchThread.init ["/a", "/b"]).run
        (fun _ p => p == "/a") 0).events.head? =
      some (Event.progress 1 2) :=
  ⟨fun _ _ _ => rfl, rfl⟩

/-- C2 (code bug): even when every path exists at poll start — so the first
tick's count equals the total and the completion-implying notification
`(N, N)` is delivered — the run does not terminate in the Completed state:
line 169 raises `AttributeError` before the completion break on line 170
ever executes, so `run()` ends by uncaught exception.  Evaluated at the
failing input `["/a"]` with the path existing from time 0. -/
theorem c2_crash_precludes_completed :
    (∀ (items : List String) (fs : Nat → String → Bool) (start_time : Nat),
        ((PreviewProcessorWatchThread.init items).run fs start_time).outcome =
          Outcome.crashed "existsCountChanged") ∧
    (PreviewProcessorWatchThread.init ["/a"]).run (fun _ _ => true) 0 =
      ⟨[Event.progress 1 1], Outcome.crashed "existsCountChanged", 0, 0,
        []⟩ ∧
    ((PreviewProcessorWatchThread.init ["/a"]).run (fun _ _ => true)
        0).outcome ≠ Outcome.completed :=
  ⟨fun _ _ _ => rfl, rfl, by decide⟩

/-- C3 (code bug): when no path ever exists the run still does not time
out: it delivers the first tick's `(0, N)` notification and dies of the
line 169 `AttributeError`; the deadline comparison (line 173) and
`self.timeout.emit()` (line 174) never execute — and the class declares no
`timeout` signal at all — so no run ever emits a timeout notification or
ends `TimedOut`.  Evaluated at the failing input `["/a"]` with nothing ever
existing. -/
theorem c3_crash_precludes_timeout :
    (∀ (items : List String) (fs : Nat → String → Bool) (start_time : Nat),
        ((PreviewProcessorWatchThread.init items).run fs start_time).outcome =
            Outcome.crashed "existsCountChanged" ∧
          Event.timeout ∉
            ((PreviewProcessorWatchThread.init items).run fs
              start_time).events) ∧
    (PreviewProcessorWatchThread.init ["/a"]).run (fun _ _ => false) 0 =
      ⟨[Event.progress 0 1], Outcome.crashed "existsCountChanged", 0, 0,
        []⟩ ∧
    ((PreviewProcessorWatchThread.init ["/a"]).run (fun _ _ => false)
        0).outcome ≠ Outcome.timedOut :=
  by
  refine ⟨fun items fs start_time => ⟨rfl, ?_⟩, rfl, by decide⟩
  simp [PreviewProcessorWatchThread.run]

/-- C4: the timeout duration is computed exactly once, at construction
(line 158), as `60 + 30 * N`, defining the deadline
`start_time + (60 + 30 * N)`; it is never recomputed or changed during the
run — indeed the run aborts on line 169 before the only use of
`self.__timeout`, the deadline comparison on line 173, so zero deadline
evaluations occur during a run. -/
theorem c4_deadline_fixed (items : List String) (fs : Nat → String → Bool)
    (start_time : Nat) :
    (PreviewProcessorWatchThread.init items).timeout =
        60 + 30 * items.length ∧
    ((PreviewProcessorWatchThread.init items).run fs
        start_time).deadlinesChecked = [] :=
  ⟨rfl, rfl⟩

/-- C7: every progress notification `(current, total)` delivered during a
run — there is exactly one, the first tick's — satisfies
`0 ≤ current ≤ total`, and `total` is the length of the fixed item list. -/
theorem c7_progress_bounded (items : List String)
    (fs : Nat → String → Bool) (start_time : Nat) (current total : Nat)
    (h : Event.progress current total ∈
        ((PreviewProcessorWatchThread.init items).run fs start_time).events) :
    0 ≤ current ∧ current ≤ total ∧ total = items.length := by
  have heq : Event.progress current total =
      Event.progress (existCount (fs start_time) items) items.length :=
    List.mem_singleton.mp h
  injection heq with hcur htot
  subst hcur
  subst htot
  exact ⟨Nat.zero_le _, existCount_le _ _, rfl⟩

/-- Witness for C7: the notification `(1, 1)` delivered by a run over
`["/a"]` with the path existing is within bounds. -/
theorem c7_witness :
    Event.progress 1 1 ∈
        ((PreviewProcessorWatchThread.init ["/a"]).run (fun _ _ => true)
          0).events ∧
    (0 ≤ 1 ∧ 1 ≤ 1 ∧ 1 = (["/a"] : List String).length) := by
  have hmem : Event.progress 1 1 ∈
      ((PreviewProcessorWatchThread.init ["/a"]).run (fun _ _ => true)
        0).events := by decide
  exact ⟨hmem, c7_progress_bounded ["/a"] (fun _ _ => true) 0 1 1 hmem⟩

/-- C8 (code bug): the final — and only — notification of a run is the
first tick's `(count, total)`, which can have `count < total`: the
`AttributeError` on line 169 kills the thread before any further emission,
so the final notification is in general neither a completion-implying
progress notification (`current = total`) nor the timeout notification.
Evaluated at the failing input `["/a"]` with nothing existing: the last
notification is `(0, 1)` with `0 ≠ 1`. -/
theorem c8_final_notification_is_first_tick :
    (∀ (items : List String) (fs : Nat → String → Bool) (start_time : Nat),
        ((PreviewProcessorWatchThread.init items).run fs
            start_time).events.getLast? =
          some (Event.progress (existCount (fs start_time) items)
            items.length)) ∧
    ((PreviewProcessorWatchThread.init ["/a"]).run (fun _ _ => false)
        0).events.getLast? = some (Event.progress 0 1) ∧
    (0 : Nat) ≠ (["/a"] : List String).length ∧
    Event.progress 0 1 ≠ Event.timeout :=
  ⟨fun _ _ _ => rfl, rfl, by decide, by decide⟩

/-- C9 (code bug): every run does terminate, but not by the claim's
Completed or TimedOut exits with per-tick sleeps and deadline checks: it
performs one partial iteration and ends by the uncaught `AttributeError` of
line 169, with zero `time.sleep(1)` calls, zero deadline evaluations, and
no time elapsed.  Evaluated at the failing input `["/a"]` with nothing
existing. -/
theorem c9_no_loop_crash_exit :
    (∀ (items : List String) (fs : Nat → String → Bool) (start_time : Nat),
        ((PreviewProcessorWatchThread.init items).run fs start_time).sleeps =
            0 ∧
          ((PreviewProcessorWatchThread.init items).run fs
              start_time).deadlinesChecked = [] ∧
          ((PreviewProcessorWatchThread.init items).run fs
              start_time).endTime = start_time ∧
          ((PreviewProcessorWatchThread.init items).run fs
              start_time).outcome = Outcome.crashed "existsCountChanged") ∧
    ((PreviewProcessorWatchThread.init ["/a"]).run (fun _ _ => false)
        0).outcome ≠ Outcome.completed ∧
    ((PreviewProcessorWatchThread.init ["/a"]).run (fun _ _ => false)
        0).outcome ≠ Outcome.timedOut :=
  ⟨fun _ _ _ => ⟨rfl, rfl, rfl, rfl⟩, by decide, by decide⟩

/-- C10 (code bug): on a tick where the count equals the total the run
still does not terminate in the Completed state: the `AttributeError` on
line 169 is raised before the `count == len(items)` break on line 170, so
the break is dead code and `run()` ends by exception (no timeout
notification is emitted either).  Evaluated at the failing input `["/a"]`
with the path existing, a completing tick. -/
theorem c10_completion_break_unreachable :
    existCount ((fun _ _ => true : Nat → String → Bool) 0) ["/a"] =
        (["/a"] : List String).length ∧
    (PreviewProcessorWatchThread.init ["/a"]).run (fun _ _ => true) 0 =
      ⟨[Event.progress 1 1], Outcome.crashed "existsCountChanged", 0, 0,
        []⟩ ∧
    ((PreviewProcessorWatchThread.init ["/a"]).run (fun _ _ => true)
        0).outcome ≠ Outcome.completed ∧
    Event.timeout ∉
      ((PreviewProcessorWatchThread.init ["/a"]).run (fun _ _ => true)
        0).events :=
  ⟨rfl, rfl, by decide, by decide⟩

/-! ### The log-file port scan (`PreviewProcessorDialog.__findHttpPort`)

Lines are lists of characters so that every scan evaluates by `decide`.
The Python string operations used by the source are modelled over them. -/

/-- Python `line.startswith(pre)`. -/
def pyStartsWith (line pre : List Char) : Bool :=
  pre.isPrefixOf line

/-- Helper for `pySplit`: accumulate the current piece (reversed) and cut at
each separator occurrence. -/
def pySplitAux (sep : Char) : List Char → List Char → List (List Char)
  | [], acc => [acc.reverse]
  | c :: cs, acc =>
    if c = sep then acc.reverse :: pySplitAux sep cs []
    else pySplitAux sep cs (c :: acc)

/-- Python `s.split(sep)` for a one-character separator: all pieces between
occurrences of `sep`, empty pieces preserved. -/
def pySplit (sep : Char) (s : List Char) : List (List Char) :=
  pySplitAux sep s []

/-- The whitespace characters removed by Python `str.strip()`. -/
def pySpace (c : Char) : Bool :=
  c = ' ' || c = '\t' || c = '\n' || c = '\r' || c = '\x0b' || c = '\x0c'

/-- Python `s.strip()`: drop whitespace from both ends. -/
def pyStrip (s : List Char) : List Char :=
  ((s.dropWhile pySpace).reverse.dropWhile pySpace).reverse

/-- Decimal digits accumulated left to right; `none` on a non-digit. -/
def pyDigits : List Char → Nat → Option Nat
  | [], acc => some acc
  | c :: cs, acc =>
    if c.isDigit then pyDigits cs (acc * 10 + (c.toNat - Char.toNat '0'))
    else none

/-- Python `int(s)` on an already-stripped string: an optional sign followed
by at least one decimal digit; `none` models a raised `ValueError`. -/
def pyInt? (s : List Char) : Option Int :=
  match s with
  | [] => none
  | '-' :: cs =>
    if cs = [] then none else (pyDigits cs 0).map (fun n => -(n : Int))
  | '+' :: cs =>
    if cs = [] then none else (pyDigits cs 0).map (fun n => (n : Int))
  | _ => (pyDigits s 0).map (fun n => (n : Int))

/-- `int(line.split(":")[1].strip())` for one log line; `none` models the
propagation of an uncaught `IndexError`/`ValueError`. -/
def parsePortLine (line : List Char) : Option Int :=
  match (pySplit ':' line)[1]? with
  | none => none
  | some piece => pyInt? (pyStrip piece)

/-- How `__findHttpPort` ends: `return int(...)`, an uncaught parse error, or
the final `raise Exception("Katana 2.7.19 and above is required...")`. -/
inductive FindPortResult where
  | found (port : Int)
  | parseError
  | portNotFound
deriving DecidableEq, Repr

/-- The scan loop of `__findHttpPort` over the remaining lines with the
running `counter`: each iteration does `counter += 1`, then
`if counter >= 5000: break`, then returns the parsed port if the line starts
with "Preview Server", else moves to the next line.  Leaving the loop —
end of file or break — reaches the `raise`. -/
def findHttpPortAux : List (List Char) → Nat → FindPortResult
  | [], _ => FindPortResult.portNotFound
  | line :: rest, counter =>
    if 5000 ≤ counter + 1 then FindPortResult.portNotFound
    else if pyStartsWith line "Preview Server".data then
      match parsePortLine line with
      | some port => FindPortResult.found port
      | none => FindPortResult.parseError
    else findHttpPortAux rest (counter + 1)

/-- `PreviewProcessorDialog.__findHttpPort` on the log file's lines,
starting with `counter = 0`. -/
def findHttpPort (log_lines : List (List Char)) : FindPortResult :=
  findHttpPortAux log_lines 0

lemma findHttpPortAux_found :
    ∀ (log_lines : List (List Char)) (counter i : Nat) (line : List Char)
      (port : Int),
      i + counter + 1 < 5000 → log_lines[i]? = some line →
      pyStartsWith line "Preview Server".data = true →
      (∀ j l', j < i → log_lines[j]? = some l' →
        pyStartsWith l' "Preview Server".data = false) →
      parsePortLine line = some port →
      findHttpPortAux log_lines counter = FindPortResult.found port := by
  intro log_lines
  induction log_lines with
  | nil =>
    intro counter i line port _ hget
    simp at hget
  | cons l rest ih =>
    intro counter i line port hbound hget hsw hbef hparse
    match i with
    | 0 =>
      have hl : l = line := by simpa using hget
      subst hl
      simp only [findHttpPortAux]
      rw [if_neg (by omega), if_pos hsw, hparse]
    | Nat.succ i' =>
      have hlfalse : pyStartsWith l "Preview Server".data = false :=
        hbef 0 l (by omega) (by simp)
      simp only [findHttpPortAux]
      rw [if_neg (by omega), if_neg (by simp [hlfalse])]
      refine ih (counter + 1) i' line port (by omega) (by simpa using hget)
        hsw ?_ hparse
      intro j l' hj hl'
      exact hbef (j + 1) l' (by omega) (by simpa using hl')

lemma findHttpPortAux_notFound :
    ∀ (log_lines : List (List Char)) (counter : Nat),
      (∀ j l', j + counter + 1 < 5000 → log_lines[j]? = some l' →
        pyStartsWith l' "Preview Server".data = false) →
      findHttpPortAux log_lines counter = FindPortResult.portNotFound := by
  intro log_lines
  induction log_lines with
  | nil =>
    intro counter _
    rfl
  | cons l rest ih =>
    intro counter h
    simp only [findHttpPortAux]
    by_cases hc : 5000 ≤ counter + 1
    · rw [if_pos hc]
    · rw [if_neg hc, if_neg (by simp [h 0 l (by omega) (by simp)])]
      refine ih (counter + 1) ?_
      intro j l' hj hl'
      exact h (j + 1) l' (by omega) (by simpa using hl')

/-- A log file whose only "Preview Server" line is the 5000th line. -/
def badLog : List (List Char) :=
  List.replicate 4999 ['x'] ++ ["Preview Server : 9321".data]

lemma badLog_skip :
    ∀ (n counter : Nat), 5000 ≤ counter + n + 1 →
      findHttpPortAux
        (List.replicate n ['x'] ++ ["Preview Server : 9321".data]) counter =
        FindPortResult.portNotFound := by
  intro n
  induction n with
  | zero =>
    intro counter hc
    simp only [List.replicate, List.nil_append, findHttpPortAux]
    rw [if_pos (by omega)]
  | succ n ih =>
    intro counter hc
    rw [List.replicate_succ, List.cons_append]
    simp only [findHttpPortAux]
    by_cases hbig : 5000 ≤ counter + 1
    · rw [if_pos hbig]
    · rw [if_neg hbig, if_neg (by decide)]
      exact ih (counter + 1) (by omega)

/-- Counterexample to C5 as stated: this log file's 5000th line (index 4999)
starts with "Preview Server" and parses to port 9321, yet the scan raises
instead of returning the port, because `counter += 1` runs before the
`counter >= 5000` break and so the 5000th line is never examined. -/
theorem c5_counterexample :
    badLog.length = 5000 ∧
    badLog[4999]? = some "Preview Server : 9321".data ∧
    pyStartsWith "Preview Server : 9321".data "Preview Server".data = true ∧
    parsePortLine "Preview Server : 9321".data = some 9321 ∧
    findHttpPort badLog = FindPortResult.portNotFound := by
  refine ⟨?_, ?_, by decide, by decide, badLog_skip 4999 0 (by omega)⟩
  · rw [badLog.eq_def, List.length_append, List.length_replicate]
    rfl
  · rw [badLog.eq_def,
      List.getElem?_append_right (le_of_eq (List.length_replicate 4999 _)),
      List.length_replicate, Nat.sub_self]
    rfl

/-- C5 (amended): the scan is bounded to the first 4999 lines — the counter
is incremented before the `counter >= 5000` check, so the 5000th line is
never examined.  Within that bound, the first line starting with
"Preview Server" determines the returned port, parsed as the integer after
the first colon; if no line within the bound matches, the scan fails with
the explicit `raise` (PortNotFound) instead of returning a port.
Concretely, a log containing "Preview Server : 9321" resolves to 9321. -/
theorem c5_port_scan :
    (∀ (log_lines : List (List Char)) (i : Nat) (line : List Char)
        (port : Int),
        i < 4999 → log_lines[i]? = some line →
        pyStartsWith line "Preview Server".data = true →
        (∀ j l', j < i → log_lines[j]? = some l' →
          pyStartsWith l' "Preview Server".data = false) →
        parsePortLine line = some port →
        findHttpPort log_lines = FindPortResult.found port) ∧
    (∀ log_lines : List (List Char),
        (∀ j l', j < 4999 → log_lines[j]? = some l' →
          pyStartsWith l' "Preview Server".data = false) →
        findHttpPort log_lines = FindPortResult.portNotFound) ∧
    findHttpPort ["Preview Server : 9321".data] = FindPortResult.found 9321 := by
  refine ⟨?_, ?_, by decide⟩
  · intro log_lines i line port hi hget hsw hbef hp
    exact findHttpPortAux_found log_lines 0 i line port (by omega) hget hsw
      hbef hp
  · intro log_lines h
    exact findHttpPortAux_notFound log_lines 0
      (fun j l' hj hl => h j l' (by omega) hl)

/-- Witness for C5 (amended) on a two-line log whose second line carries the
port. -/
theorem c5_witness :
    ((1 : Nat) < 4999 ∧
      ([['x'], "Preview Server : 9321".data])[1]? =
        some "Preview Server : 9321".data ∧
      pyStartsWith "Preview Server : 9321".data "Preview Server".data = true ∧
      parsePortLine "Preview Server : 9321".data = some 9321) ∧
    findHttpPort [['x'], "Preview Server : 9321".data] =
      FindPortResult.found 9321 := by
  refine ⟨⟨by decide, by decide, by decide, by decide⟩, ?_⟩
  refine c5_port_scan.1 [['x'], "Preview Server : 9321".data] 1
    "Preview Server : 9321".data 9321 (by decide) (by decide) (by decide)
    ?_ (by decide)
  intro j l' hj hl
  have hj0 : j = 0 := by omega
  subst hj0
  have hl' : l' = ['x'] := by simpa using hl.symm
  subst hl'
  decide

/-! ### The empty-playlist guard in `PreviewProcessorDialog.process` -/

/-- Observable effects of the tail of `process` after the playlist is parsed
into `items`: whether the playlist temp file was written, the watch thread
created and started (with its construction arguments), and the progress-bar
range that was set. -/
structure ProcessEffects where
  playlistWritten : Bool
  thread : Option PreviewProcessorWatchThread
  progressRange : Option (Nat × Nat)
deriving DecidableEq, Repr

/-- The tail of `PreviewProcessorDialog.process` after parsing: `if not
items: return`; otherwise write the playlist temp file, create and start
`PreviewProcessorWatchThread(items, self)`, and set the progress range
`(0, len(items))`. -/
def process (items : List String) : ProcessEffects :=
  if items.isEmpty then ⟨false, none, none⟩
  else ⟨true, some (PreviewProcessorWatchThread.init items),
    some (0, items.length)⟩

/-- C6: when zero items are parsed from the playlist, `process` returns
silently before any polling begins: no playlist temp file is written, no
watch thread is created or started, and no progress range is set. -/
theorem c6_empty_playlist_aborts (items : List String) (h : items = []) :
    (process items).playlistWritten = false ∧
    (process items).thread = none ∧
    (process items).progressRange = none := by
  subst h
  exact ⟨rfl, rfl, rfl⟩

/-- Witness for C6 at the empty item list. -/
theorem c6_witness :
    ([] : List String) = [] ∧
    ((process ([] : List String)).playlistWritten = false ∧
      (process ([] : List String)).thread = none ∧
      (process ([] : List String)).progressRange = none) :=
  ⟨rfl, c6_empty_playlist_aborts [] rfl⟩

end PreviewWidget
